import Mathlib

/-!
# Verification of the ElderTech Voice Assistant backend

Shallow embedding of the Python backend:
* `backend/scripts/nightly_faq_clustering.py` — the nightly FAQ clustering
  batch job (`FAQClusterer`): content analysis, category grouping, gap
  detection, recommendations, and the saved report.
* `backend/services/tts.py` — `text_to_speech` voice/speed validation.
* `backend/services/whisper.py` — `validate_audio_format`.
* `backend/services/openai.py` — `ElderTechAssistant.get_response`.

Conventions of the embedding:
* Python numbers are modelled exactly: integer columns as `Int`/`Nat`,
  true division (`/` on numbers) as division in `ℚ`.
* Calls to the external OpenAI gateway are modelled as oracle functions
  passed in as parameters; a Python call that may raise is an oracle
  returning `Except String _`, where `.error e` stands for a raised
  exception with message `e`.  A `try/except` block that swallows the
  exception becomes a `match` on the oracle result.
* Byte strings are modelled as `List Nat` (one entry per byte).
-/

/-- An entity record as returned by `extract_entities`
(`{entity, type, confidence}`). -/
structure Entity where
  entity : String
  etype : String
  confidence : ℚ
  deriving DecidableEq

/-- A sentiment record as returned by `analyze_sentiment`
(`{sentiment, confidence}`). -/
structure Sentiment where
  sentiment : String
  confidence : ℚ
  deriving DecidableEq

/-- A row of the `FAQ` table as used by the clustering script
(`id`, `question`, `answer`, `category`, `priority`; `priority` is an
integer column). -/
structure FAQRow where
  id : Nat
  question : String
  answer : String
  category : String
  priority : Int
  deriving DecidableEq

/-- The analyzed-FAQ dict built by `FAQClusterer.analyze_faq_content`. -/
structure AnalyzedFAQ where
  id : Nat
  question : String
  answer : String
  category : String
  entities : List Entity
  sentiment : Sentiment
  priority : Int
  deriving DecidableEq

/-- The text handed to both annotation calls:
`faq.question + " " + faq.answer`. -/
def faqText (faq : FAQRow) : String :=
  faq.question ++ " " ++ faq.answer

/-- `FAQClusterer.analyze_faq_content`: runs entity extraction, then
sentiment analysis, on `question + " " + answer`; the surrounding
`try/except` turns any raised exception into `None` (here `none`), so the
record is kept only when both calls succeed. -/
def analyze_faq_content
    (extract_entities : String → Except String (List Entity))
    (analyze_sentiment : String → Except String Sentiment)
    (faq : FAQRow) : Option AnalyzedFAQ :=
  match extract_entities (faqText faq) with
  | .error _ => none
  | .ok entities =>
    match analyze_sentiment (faqText faq) with
    | .error _ => none
    | .ok sentiment =>
      some { id := faq.id
             question := faq.question
             answer := faq.answer
             category := faq.category
             entities := entities
             sentiment := sentiment
             priority := faq.priority }

/-- A cluster dict as built by `FAQClusterer.create_clusters`:
`{name, faqs, count, avg_priority}`. -/
structure Cluster where
  name : String
  faqs : List AnalyzedFAQ
  count : Nat
  avg_priority : ℚ
  deriving DecidableEq

/-- One step of the grouping loop in `create_clusters`: append the FAQ to
the entry keyed by its category, creating the entry at the end if the key
is new (Python dicts preserve insertion order). -/
def addToGroups (gs : List (String × List AnalyzedFAQ)) (f : AnalyzedFAQ) :
    List (String × List AnalyzedFAQ) :=
  if gs.any (fun g => g.1 == f.category) then
    gs.map (fun g => if g.1 == f.category then (g.1, g.2 ++ [f]) else g)
  else
    gs ++ [(f.category, [f])]

/-- The `clusters` dict of `create_clusters` after the grouping loop, as
an association list in key-insertion order. -/
def groupByCategory (faqs : List AnalyzedFAQ) : List (String × List AnalyzedFAQ) :=
  faqs.foldl addToGroups []

/-- `FAQClusterer.create_clusters`: skip falsy (`None`) entries, group by
exact category string, then build one cluster dict per category with
`count = len(faqs)` and `avg_priority = sum(priority)/len(faqs)`. -/
def create_clusters (faqs : List (Option AnalyzedFAQ)) : List Cluster :=
  (groupByCategory (faqs.filterMap id)).map fun g =>
    { name := g.1
      faqs := g.2
      count := g.2.length
      avg_priority := ((g.2.map (fun f => f.priority)).sum : ℚ) / (g.2.length : ℚ) }

/-- A gap dict as built by `FAQClusterer.identify_gaps`; the two `type`
values carry different fields, matching the two dict shapes in the code. -/
inductive Gap where
  | low_coverage (category : String) (current_count : Nat)
      (recommended_min : Nat) (description : String)
  | low_priority (category : String) (avg_priority : ℚ) (description : String)
  deriving DecidableEq

/-- The `low_coverage` gap dict built for a cluster
(`recommended_min` is the literal 5 from the code). -/
def lowCoverageGapOf (c : Cluster) : Gap :=
  .low_coverage c.name c.count 5
    ("Category \x27" ++ c.name ++ "\x27 has only " ++ toString c.count ++ " FAQs")

/-- The `low_priority` gap dict built for a cluster. -/
def lowPriorityGapOf (c : Cluster) : Gap :=
  .low_priority c.name c.avg_priority
    ("Category \x27" ++ c.name ++ "\x27 has low priority FAQs")

/-- `FAQClusterer.identify_gaps`: a first loop over all clusters appends a
`low_coverage` gap when `count < 3`; a second loop appends a
`low_priority` gap when `avg_priority < 2 and count > 5`. -/
def identify_gaps (clusters : List Cluster) : List Gap :=
  clusters.filterMap
    (fun c => if c.count < 3 then some (lowCoverageGapOf c) else none)
  ++ clusters.filterMap
    (fun c => if c.avg_priority < 2 ∧ 5 < c.count then some (lowPriorityGapOf c) else none)

/-- Round a rational to the nearest integer, ties to even — the rounding
used by Python float formatting, applied here to the exact rational
value. -/
def roundHalfEven (q : ℚ) : Int :=
  if q - (q.floor : ℚ) < 1/2 then q.floor
  else if (1/2 : ℚ) < q - (q.floor : ℚ) then q.floor + 1
  else if q.floor % 2 = 0 then q.floor else q.floor + 1

/-- Python `f"{x:.1f}"` on the exact rational value: round to one decimal
place and print with exactly one digit after the point. -/
def formatOneDecimal (q : ℚ) : String :=
  let n : Int := roundHalfEven (q * 10)
  let sign := if n < 0 then "-" else ""
  sign ++ toString (n.natAbs / 10) ++ "." ++ toString (n.natAbs % 10)

/-- The recommendation sentence built for one gap by the
`if/elif` chain in `FAQClusterer.generate_recommendations` (`none` would
correspond to a gap type matching neither branch). -/
def recommendation_of_gap : Gap → Option String
  | .low_coverage category current_count recommended_min _ =>
      some ("Add more FAQs to category \x27" ++ category ++ "\x27 (currently "
        ++ toString current_count ++ ", recommend " ++ toString recommended_min ++ ")")
  | .low_priority category avg_priority _ =>
      some ("Review and prioritize FAQs in category \x27" ++ category
        ++ "\x27 (average priority: " ++ formatOneDecimal avg_priority ++ ")")

/-- `FAQClusterer.generate_recommendations`: one pass over the gaps,
appending the type-specific sentence for each. -/
def generate_recommendations (gaps : List Gap) : List String :=
  gaps.filterMap recommendation_of_gap

/-- The `summary` object of the saved report. -/
structure Summary where
  total_faqs : Nat
  total_clusters : Nat
  total_gaps : Nat
  deriving DecidableEq

/-- The results object serialized by `FAQClusterer.save_results`
(timestamp omitted: it is wall-clock data). -/
structure Report where
  clusters : List Cluster
  gaps : List Gap
  recommendations : List String
  summary : Summary
  deriving DecidableEq

/-- `FAQClusterer.save_results`: builds the results object, with
`total_faqs = sum(c["count"] for c in clusters)`,
`total_clusters = len(clusters)`, `total_gaps = len(gaps)`. -/
def save_results (clusters : List Cluster) (gaps : List Gap)
    (recommendations : List String) : Report :=
  { clusters := clusters
    gaps := gaps
    recommendations := recommendations
    summary :=
      { total_faqs := (clusters.map (fun c => c.count)).sum
        total_clusters := clusters.length
        total_gaps := gaps.length } }

/-- `FAQClusterer.run_clustering` from the loaded FAQ rows onward:
analyze each FAQ in order, keep only truthy results, cluster, detect
gaps, generate recommendations, save.  Failures of the two annotation
oracles are absorbed inside `analyze_faq_content`, so the run always
produces a report. -/
def run_clustering
    (extract_entities : String → Except String (List Entity))
    (analyze_sentiment : String → Except String Sentiment)
    (faqs : List FAQRow) : Report :=
  let analyzed := faqs.filterMap (analyze_faq_content extract_entities analyze_sentiment)
  let clusters := create_clusters (analyzed.map some)
  let gaps := identify_gaps clusters
  let recommendations := generate_recommendations gaps
  save_results clusters gaps recommendations

/-! ## Text-to-speech service (`backend/services/tts.py`) -/

/-- The `valid_voices` list of `text_to_speech`. -/
def valid_voices : List String :=
  ["alloy", "echo", "fable", "onyx", "nova", "shimmer"]

/-- The voice actually passed to synthesis after the validation block of
`text_to_speech`: an unknown voice is replaced by `"alloy"`. -/
def tts_effective_voice (voice : String) : String :=
  if valid_voices.contains voice then voice else "alloy"

/-- The speed actually passed to synthesis after the validation block of
`text_to_speech`: `speed < 0.25 or speed > 4.0` resets it to `1.0`. -/
def tts_effective_speed (speed : ℚ) : ℚ :=
  if speed < 1/4 ∨ 4 < speed then 1 else speed

/-- `text_to_speech`: validate the parameters, call the synthesis API with
the effective voice and speed, and return its bytes; on any raised
exception return the empty byte string. -/
def text_to_speech (synthesize : String → String → ℚ → Except String (List Nat))
    (text : String) (voice : String) (speed : ℚ) : List Nat :=
  match synthesize text (tts_effective_voice voice) (tts_effective_speed speed) with
  | .ok data => data
  | .error _ => []

/-! ## Whisper service (`backend/services/whisper.py`) -/

/-- The `audio_headers` list of `validate_audio_format`:
`RIFF`, `ID3`, `\xff\xfb`, `OggS`, `fLaC` as byte sequences. -/
def audio_headers : List (List Nat) :=
  [[0x52, 0x49, 0x46, 0x46],
   [0x49, 0x44, 0x33],
   [0xFF, 0xFB],
   [0x4F, 0x67, 0x67, 0x53],
   [0x66, 0x4C, 0x61, 0x43]]

/-- Python `bytes.startswith`: the first argument is an initial segment of
the second. -/
def bytesStartWith : List Nat → List Nat → Bool
  | [], _ => true
  | _ :: _, [] => false
  | h :: hs, b :: bs => h == b && bytesStartWith hs bs

/-- `validate_audio_format`: reject empty data, reject data over the 25 MB
Whisper limit, then return `True` whether or not one of the known audio
headers is found ("assume valid if no specific header found"). -/
def validate_audio_format (data : List Nat) : Bool :=
  if data.isEmpty then false
  else if 25 * 1024 * 1024 < data.length then false
  else if audio_headers.any (fun h => bytesStartWith h data) then true
  else true

/-! ## Chat assistant (`backend/services/openai.py`) -/

/-- One chat message dict (`{role, content}`). -/
structure Message where
  role : String
  content : String
  deriving DecidableEq

/-- The `system_prompt` of `ElderTechAssistant.__init__` (whitespace of
the Python triple-quoted literal normalised; its exact text is never
inspected by any property below). -/
def system_prompt : String :=
  "You are ElderTech, a compassionate AI voice assistant designed specifically for elderly users. " ++
  "Your role is to provide helpful, supportive, and easy-to-understand assistance. " ++
  "Key principles: speak clearly and use simple language; be patient and understanding; " ++
  "provide practical, actionable advice; show empathy and emotional support; " ++
  "help with daily tasks, health reminders, and social connection; " ++
  "never give medical advice - always recommend consulting healthcare professionals; " ++
  "keep responses concise but warm. " ++
  "You can help with: daily reminders and scheduling; health and wellness tips; " ++
  "social connection and communication; technology assistance; " ++
  "emergency contact information; general questions and conversation. " ++
  "Always prioritize safety and well-being."

/-- Python `l[-n:]`: the last `n` elements (all of them when
`l` is shorter). -/
def takeLast {α : Type} (n : Nat) (l : List α) : List α :=
  l.drop (l.length - n)

/-- The optional `User context: ...` system message of `get_response`
(the context dict is modelled already serialized by `json.dumps`). -/
def context_messages : Option String → List Message
  | some ctx => [{ role := "system", content := "User context: " ++ ctx }]
  | none => []

/-- The `messages` list built by `ElderTechAssistant.get_response`:
system prompt, then `conversation_history[-10:]`, then the optional user
context, then the current user message. -/
def prompt_messages (history : List Message) (user_message : String)
    (user_context : Option String) : List Message :=
  [{ role := "system", content := system_prompt }]
  ++ takeLast 10 history
  ++ context_messages user_context
  ++ [{ role := "user", content := user_message }]

/-- The fixed apology text returned by the `except` branch of
`get_response`, up to the interpolated `str(e)`. -/
def apology_text : String :=
  "I apologize, but I\x27m having trouble processing your request right now. " ++
  "Please try again later. Error: "

/-- `ElderTechAssistant.get_response`: build the prompt, call the chat
completion, and on success append the user message and the assistant
reply to the stored history; on a raised exception return the apology
string and leave the history untouched.  Returns
`(return value, conversation_history after the call)`. -/
def get_response (chat_completion : List Message → Except String String)
    (history : List Message) (user_message : String)
    (user_context : Option String) : String × List Message :=
  match chat_completion (prompt_messages history user_message user_context) with
  | .ok ai_response =>
      (ai_response,
        history ++ [{ role := "user", content := user_message },
                    { role := "assistant", content := ai_response }])
  | .error e => (apology_text ++ e, history)

/-! ## Specification-side characterisations

Definitions below follow the spec's wording (grouping by distinct
category in first-occurrence order, per-category count and mean); they
are compared with the code-side `create_clusters` in the theorems. -/

/-- Append a category to the list of seen categories unless already
present. -/
def insertCat (cats : List String) (c : String) : List String :=
  if c ∈ cats then cats else cats ++ [c]

/-- The distinct categories of the analyzed FAQs, in insertion order of
the first occurrence of each category (spec wording). -/
def specFirstCategories (faqs : List AnalyzedFAQ) : List String :=
  faqs.foldl (fun cats f => insertCat cats f.category) []

/-- The cluster the spec describes for one category: the FAQs whose
category matches exactly, their number, and the arithmetic mean of their
priorities. -/
def specClusterOf (faqs : List AnalyzedFAQ) (c : String) : Cluster :=
  { name := c
    faqs := faqs.filter (fun f => f.category == c)
    count := (faqs.filter (fun f => f.category == c)).length
    avg_priority :=
      (((faqs.filter (fun f => f.category == c)).map (fun f => f.priority)).sum : ℚ)
        / ((faqs.filter (fun f => f.category == c)).length : ℚ) }

/-- The spec's recommendation sentence for one gap, template chosen by
the gap's type. -/
def gapSentence : Gap → String
  | .low_coverage category current_count recommended_min _ =>
      "Add more FAQs to category \x27" ++ category ++ "\x27 (currently "
        ++ toString current_count ++ ", recommend " ++ toString recommended_min ++ ")"
  | .low_priority category avg_priority _ =>
      "Review and prioritize FAQs in category \x27" ++ category
        ++ "\x27 (average priority: " ++ formatOneDecimal avg_priority ++ ")"

/-- The `gap["type"] == "low_coverage"` test. -/
def Gap.isLowCoverage : Gap → Bool
  | .low_coverage _ _ _ _ => true
  | .low_priority _ _ _ => false

/-- The `gap["type"] == "low_priority"` test. -/
def Gap.isLowPriority : Gap → Bool
  | .low_coverage _ _ _ _ => false
  | .low_priority _ _ _ => true

/-- The `gap["category"]` field. -/
def Gap.categoryName : Gap → String
  | .low_coverage c _ _ _ => c
  | .low_priority c _ _ => c

/-! ## Concrete inputs used to exercise the theorems -/

/-- First FAQ of the spec's clustering example: category `A`,
priority 1. -/
def exampleFAQ_A1 : AnalyzedFAQ :=
  { id := 1, question := "qA1", answer := "aA1", category := "A",
    entities := [], sentiment := { sentiment := "neutral", confidence := 1/2 },
    priority := 1 }

/-- Second FAQ of the spec's clustering example: category `A`,
priority 1. -/
def exampleFAQ_A2 : AnalyzedFAQ :=
  { id := 2, question := "qA2", answer := "aA2", category := "A",
    entities := [], sentiment := { sentiment := "neutral", confidence := 1/2 },
    priority := 1 }

/-- Third FAQ of the spec's clustering example: category `B`,
priority 5. -/
def exampleFAQ_B : AnalyzedFAQ :=
  { id := 3, question := "qB", answer := "aB", category := "B",
    entities := [], sentiment := { sentiment := "neutral", confidence := 1/2 },
    priority := 5 }

/-- An entity-extraction oracle that always raises. -/
def failingExtract : String → Except String (List Entity) :=
  fun _ => .error ("boom")

/-- A sentiment oracle that always succeeds. -/
def okSentiment : String → Except String Sentiment :=
  fun _ => .ok { sentiment := "neutral", confidence := 1/2 }

/-- A concrete FAQ row. -/
def witnessFAQRow : FAQRow :=
  { id := 7, question := "q", answer := "a", category := "A", priority := 1 }

/-! ## Lemmas about the grouping loop -/

lemma groupByCategory_append (fs : List AnalyzedFAQ) (f : AnalyzedFAQ) :
    groupByCategory (fs ++ [f]) = addToGroups (groupByCategory fs) f := by
  simp [groupByCategory, List.foldl_append]

lemma specFirstCategories_append (fs : List AnalyzedFAQ) (f : AnalyzedFAQ) :
    specFirstCategories (fs ++ [f])
      = insertCat (specFirstCategories fs) f.category := by
  simp [specFirstCategories, List.foldl_append]

lemma mem_insertCat {cats : List String} {a c : String} :
    c ∈ insertCat cats a ↔ c ∈ cats ∨ c = a := by
  unfold insertCat
  split
  · rename_i h
    constructor
    · exact Or.inl
    · rintro (hc | rfl)
      · exact hc
      · exact h
  · simp

lemma mem_specFirstCategories_aux (fs : List AnalyzedFAQ) :
    ∀ (init : List String) (c : String),
      c ∈ fs.foldl (fun cats f => insertCat cats f.category) init
        ↔ c ∈ init ∨ ∃ f ∈ fs, f.category = c := by
  induction fs with
  | nil => intro init c; simp
  | cons f fs ih =>
    intro init c
    simp only [List.foldl_cons]
    rw [ih]
    rw [mem_insertCat]
    constructor
    · rintro ((hc | rfl) | ⟨x, hx, hxc⟩)
      · exact Or.inl hc
      · exact Or.inr ⟨f, List.mem_cons_self _ _, rfl⟩
      · exact Or.inr ⟨x, List.mem_cons_of_mem _ hx, hxc⟩
    · rintro (hc | ⟨x, hx, hxc⟩)
      · exact Or.inl (Or.inl hc)
      · rcases List.mem_cons.mp hx with rfl | hx'
        · exact Or.inl (Or.inr hxc.symm)
        · exact Or.inr ⟨x, hx', hxc⟩

lemma mem_specFirstCategories {fs : List AnalyzedFAQ} {c : String} :
    c ∈ specFirstCategories fs ↔ ∃ f ∈ fs, f.category = c := by
  rw [specFirstCategories, mem_specFirstCategories_aux]
  simp

lemma nodup_insertCat {cats : List String} {a : String} (h : cats.Nodup) :
    (insertCat cats a).Nodup := by
  unfold insertCat
  split
  · exact h
  · rename_i hna
    simp [List.nodup_append, h, hna]

lemma nodup_specFirstCategories_aux (fs : List AnalyzedFAQ) :
    ∀ init : List String, init.Nodup →
      (fs.foldl (fun cats f => insertCat cats f.category) init).Nodup := by
  induction fs with
  | nil => intro init h; exact h
  | cons f fs ih =>
    intro init h
    exact ih _ (nodup_insertCat h)

lemma nodup_specFirstCategories (fs : List AnalyzedFAQ) :
    (specFirstCategories fs).Nodup :=
  nodup_specFirstCategories_aux fs [] List.nodup_nil

lemma filter_category_eq_nil {fs : List AnalyzedFAQ} {c : String}
    (h : c ∉ specFirstCategories fs) :
    fs.filter (fun f => f.category == c) = [] := by
  rw [List.filter_eq_nil_iff]
  intro f hf
  simp only [beq_iff_eq]
  intro hfc
  exact h (mem_specFirstCategories.mpr ⟨f, hf, hfc⟩)

/-- The grouping loop of `create_clusters` produces, in first-occurrence
order, one entry per distinct category holding exactly the FAQs of that
category (in input order). -/
lemma groupByCategory_eq (faqs : List AnalyzedFAQ) :
    groupByCategory faqs
      = (specFirstCategories faqs).map
          (fun c => (c, faqs.filter (fun f => f.category == c))) := by
  induction faqs using List.reverseRecOn with
  | nil => rfl
  | append_singleton fs f ih =>
    rw [groupByCategory_append, ih, specFirstCategories_append]
    by_cases hmem : f.category ∈ specFirstCategories fs
    · rw [insertCat, if_pos hmem]
      unfold addToGroups
      rw [if_pos]
      · rw [List.map_map]
        refine List.map_congr_left fun c hc => ?_
        by_cases hcf : c = f.category
        · subst hcf
          simp [List.filter_append]
        · have hfc : ¬f.category = c := fun h => hcf h.symm
          simp [Function.comp, List.filter_append, hcf, hfc]
      · refine List.any_eq_true.mpr
          ⟨(f.category, fs.filter (fun x => x.category == f.category)), ?_, ?_⟩
        · exact List.mem_map.mpr ⟨f.category, hmem, rfl⟩
        · simp
    · rw [insertCat, if_neg hmem]
      unfold addToGroups
      rw [if_neg]
      · rw [List.map_append]
        congr 1
        · refine List.map_congr_left fun c hc => ?_
          have hfc : ¬f.category = c := fun h => hmem (h ▸ hc)
          simp [List.filter_append, hfc]
        · simp [List.filter_append, filter_category_eq_nil hmem]
      · intro hany
        rcases List.any_eq_true.mp hany with ⟨g, hg, hgf⟩
        rcases List.mem_map.mp hg with ⟨c, hc, rfl⟩
        simp only [beq_iff_eq] at hgf
        exact hmem (hgf ▸ hc)

/-- `create_clusters` on a list of (all truthy) analyzed FAQs is the
spec's clustering: one cluster per distinct category in first-occurrence
order. -/
lemma create_clusters_eq (faqs : List AnalyzedFAQ) :
    create_clusters (faqs.map some)
      = (specFirstCategories faqs).map (specClusterOf faqs) := by
  unfold create_clusters
  have hid : (faqs.map some).filterMap id = faqs := by
    simp
  rw [hid, groupByCategory_eq, List.map_map]
  rfl

lemma sum_map_add_nat {α : Type} (l : List α) (f g : α → Nat) :
    (l.map (fun x => f x + g x)).sum = (l.map f).sum + (l.map g).sum := by
  induction l with
  | nil => rfl
  | cons a l ih => simp only [List.map_cons, List.sum_cons, ih]; omega

lemma sum_indicator_one {cats : List String} {a : String}
    (hnd : cats.Nodup) (hmem : a ∈ cats) :
    (cats.map (fun c => if a = c then (1 : Nat) else 0)).sum = 1 := by
  induction cats with
  | nil => cases hmem
  | cons c cs ih =>
    rcases List.mem_cons.mp hmem with rfl | hmem'
    · have hnotin : a ∉ cs := (List.nodup_cons.mp hnd).1
      have hz : (cs.map (fun x => if a = x then (1 : Nat) else 0)).sum = 0 := by
        rw [List.sum_eq_zero]
        intro x hx
        rcases List.mem_map.mp hx with ⟨y, hy, rfl⟩
        have : ¬a = y := fun h => hnotin (h ▸ hy)
        simp [this]
      simp [hz]
    · have hne : ¬a = c := by
        rintro rfl
        exact (List.nodup_cons.mp hnd).1 hmem'
      simp only [List.map_cons, List.sum_cons, if_neg hne]
      rw [ih (List.nodup_cons.mp hnd).2 hmem']

/-- Every analyzed FAQ lands in exactly one cluster: the per-category
counts sum to the number of analyzed FAQs. -/
lemma sum_counts_eq_length (faqs : List AnalyzedFAQ) :
    ((specFirstCategories faqs).map
      (fun c => (faqs.filter (fun f => f.category == c)).length)).sum
      = faqs.length := by
  induction faqs using List.reverseRecOn with
  | nil => rfl
  | append_singleton fs f ih =>
    rw [specFirstCategories_append]
    by_cases hmem : f.category ∈ specFirstCategories fs
    · rw [insertCat, if_pos hmem]
      have h1 : ∀ c, ((fs ++ [f]).filter (fun x => x.category == c)).length
          = (fs.filter (fun x => x.category == c)).length
            + (if f.category = c then 1 else 0) := by
        intro c
        by_cases h : f.category = c <;> simp [List.filter_append, h]
      rw [List.map_congr_left (fun c _ => h1 c), sum_map_add_nat, ih,
        sum_indicator_one (nodup_specFirstCategories fs) hmem]
      simp
    · rw [insertCat, if_neg hmem, List.map_append, List.sum_append]
      have h1 : ∀ c ∈ specFirstCategories fs,
          ((fs ++ [f]).filter (fun x => x.category == c)).length
            = (fs.filter (fun x => x.category == c)).length := by
        intro c hc
        have hfc : ¬f.category = c := fun h => hmem (h ▸ hc)
        simp [List.filter_append, hfc]
      rw [List.map_congr_left h1, ih]
      simp [List.filter_append, filter_category_eq_nil hmem]

/-! ## Helpers for gaps and recommendations -/

lemma filterMap_guard_eq {α β : Type} (p : α → Prop) [DecidablePred p]
    (g : α → β) (l : List α) :
    l.filterMap (fun c => if p c then some (g c) else none)
      = (l.filter (fun c => decide (p c))).map g := by
  induction l with
  | nil => rfl
  | cons a l ih =>
    by_cases h : p a <;> simp [h, ih]

lemma recommendation_of_gap_eq (g : Gap) :
    recommendation_of_gap g = some (gapSentence g) := by
  cases g <;> rfl

lemma generate_recommendations_eq_map (gaps : List Gap) :
    generate_recommendations gaps = gaps.map gapSentence := by
  induction gaps with
  | nil => rfl
  | cons g gaps ih =>
    simp [generate_recommendations, List.filterMap_cons,
      recommendation_of_gap_eq, ih.symm]

/-! ## Helpers for the conversation history window -/

lemma takeLast_length_le {α : Type} (n : Nat) (l : List α) :
    (takeLast n l).length ≤ n := by
  unfold takeLast
  rw [List.length_drop]
  omega

lemma takeLast_takeLast {α : Type} (n : Nat) (l : List α) :
    takeLast n (takeLast n l) = takeLast n l := by
  unfold takeLast
  rw [List.length_drop]
  have h : l.length - (l.length - n) - n = 0 := by omega
  rw [h, List.drop_zero]

/-! ## Claim theorems -/

/-- C1: gap detection evaluates the two rules independently over the
whole cluster list: the emitted gaps are exactly one `low_coverage` gap
per cluster with `count < 3` and one `low_priority` gap per cluster with
`avg_priority < 2` and `count > 5`; a cluster satisfying both rules
contributes to both groups, one satisfying neither contributes to
neither. -/
theorem identify_gaps_rule_characterisation (clusters : List Cluster) :
    identify_gaps clusters
      = (clusters.filter (fun c => decide (c.count < 3))).map lowCoverageGapOf
        ++ (clusters.filter
            (fun c => decide (c.avg_priority < 2 ∧ 5 < c.count))).map lowPriorityGapOf := by
  unfold identify_gaps
  rw [filterMap_guard_eq, filterMap_guard_eq]

/-- C2: clustering a list of analyzed FAQs yields one cluster per
distinct category (exact, case-sensitive string match) in insertion
order of first occurrence, each carrying the number of FAQs of that
category and the arithmetic mean of their priorities; on the example
`[{cat A, prio 1}, {cat A, prio 1}, {cat B, prio 5}]` it yields cluster
`A` (count 2, average 1) then cluster `B` (count 1, average 5). -/
theorem create_clusters_characterisation :
    (∀ faqs : List AnalyzedFAQ,
      create_clusters (faqs.map some)
        = (specFirstCategories faqs).map (specClusterOf faqs))
    ∧ create_clusters [some exampleFAQ_A1, some exampleFAQ_A2, some exampleFAQ_B]
        = [{ name := "A", faqs := [exampleFAQ_A1, exampleFAQ_A2],
             count := 2, avg_priority := 1 },
           { name := "B", faqs := [exampleFAQ_B],
             count := 1, avg_priority := 5 }] := by
  refine ⟨create_clusters_eq, ?_⟩
  have h := create_clusters_eq [exampleFAQ_A1, exampleFAQ_A2, exampleFAQ_B]
  have hcats : specFirstCategories [exampleFAQ_A1, exampleFAQ_A2, exampleFAQ_B]
      = ["A", "B"] := by decide
  have hBA : ¬("B" : String) = "A" := by decide
  have hAB : ¬("A" : String) = "B" := by decide
  simp only [List.map_cons, List.map_nil] at h
  rw [h, hcats]
  norm_num [specClusterOf, Cluster.mk.injEq, List.filter_cons, List.filter_nil,
    hBA, hAB, exampleFAQ_A1, exampleFAQ_A2, exampleFAQ_B]

/-- C4: in every report built by the clustering run,
`summary.total_faqs` is the sum of the cluster counts,
`summary.total_clusters` the number of clusters, and
`summary.total_gaps` the number of gaps. -/
theorem report_summary_counts
    (extract_entities : String → Except String (List Entity))
    (analyze_sentiment : String → Except String Sentiment)
    (faqs : List FAQRow) :
    (run_clustering extract_entities analyze_sentiment faqs).summary.total_faqs
        = ((run_clustering extract_entities analyze_sentiment faqs).clusters.map
            (fun c => c.count)).sum
    ∧ (run_clustering extract_entities analyze_sentiment faqs).summary.total_clusters
        = (run_clustering extract_entities analyze_sentiment faqs).clusters.length
    ∧ (run_clustering extract_entities analyze_sentiment faqs).summary.total_gaps
        = (run_clustering extract_entities analyze_sentiment faqs).gaps.length :=
  ⟨rfl, rfl, rfl⟩

/-- C5: recommendation generation maps every gap to exactly one sentence,
in order, chosen by the gap's type: the `low_coverage` template
`Add more FAQs to category <name> (currently <count>, recommend <min>)`
and the `low_priority` template `Review and prioritize FAQs in category
<name> (average priority: <avg to 1 decimal>)` (see `gapSentence`), and
every `low_coverage` gap produced by gap detection carries the
recommended minimum 5. -/
theorem recommendations_from_templates (clusters : List Cluster) :
    generate_recommendations (identify_gaps clusters)
      = (identify_gaps clusters).map gapSentence
    ∧ ∀ g ∈ identify_gaps clusters,
        ∀ category current_count recommended_min description,
          g = Gap.low_coverage category current_count recommended_min description →
          recommended_min = 5 := by
  refine ⟨generate_recommendations_eq_map _, ?_⟩
  intro g hg category current_count recommended_min description heq
  unfold identify_gaps at hg
  rcases List.mem_append.mp hg with h | h
  · rcases List.mem_filterMap.mp h with ⟨c, _, hsome⟩
    by_cases h3 : c.count < 3
    · rw [if_pos h3] at hsome
      injection hsome with h4
      rw [heq] at h4
      unfold lowCoverageGapOf at h4
      injection h4 with _ _ h5 _
      exact h5.symm
    · rw [if_neg h3] at hsome
      cases hsome
  · rcases List.mem_filterMap.mp h with ⟨c, _, hsome⟩
    by_cases h3 : c.avg_priority < 2 ∧ 5 < c.count
    · rw [if_pos h3] at hsome
      injection hsome with h4
      rw [heq] at h4
      exact Gap.noConfusion h4
    · rw [if_neg h3] at hsome
      cases hsome

/-- C10: in the gap list, every `low_coverage` gap precedes every
`low_priority` gap; within each type the gaps follow the cluster order;
and the recommendation list has exactly one entry per gap (in the same
order, being a map over the gap list). -/
theorem gap_and_recommendation_order (clusters : List Cluster) :
    identify_gaps clusters
      = (identify_gaps clusters).filter (fun g => g.isLowCoverage)
        ++ (identify_gaps clusters).filter (fun g => g.isLowPriority)
    ∧ ((identify_gaps clusters).filter (fun g => g.isLowCoverage)).map Gap.categoryName
        = (clusters.filter (fun c => decide (c.count < 3))).map Cluster.name
    ∧ ((identify_gaps clusters).filter (fun g => g.isLowPriority)).map Gap.categoryName
        = (clusters.filter
            (fun c => decide (c.avg_priority < 2 ∧ 5 < c.count))).map Cluster.name
    ∧ (generate_recommendations (identify_gaps clusters)).length
        = (identify_gaps clusters).length := by
  have hgaps : identify_gaps clusters
      = (clusters.filter (fun c => decide (c.count < 3))).map lowCoverageGapOf
        ++ (clusters.filter
            (fun c => decide (c.avg_priority < 2 ∧ 5 < c.count))).map lowPriorityGapOf := by
    unfold identify_gaps
    rw [filterMap_guard_eq, filterMap_guard_eq]
  have hcov : ∀ l : List Cluster,
      (l.map lowCoverageGapOf).filter (fun g => g.isLowCoverage) = l.map lowCoverageGapOf := by
    intro l
    induction l with
    | nil => rfl
    | cons c l ih => simp [lowCoverageGapOf, Gap.isLowCoverage, ih]
  have hcov' : ∀ l : List Cluster,
      (l.map lowPriorityGapOf).filter (fun g => g.isLowCoverage) = [] := by
    intro l
    induction l with
    | nil => rfl
    | cons c l ih => simp [lowPriorityGapOf, Gap.isLowCoverage, ih]
  have hpri : ∀ l : List Cluster,
      (l.map lowPriorityGapOf).filter (fun g => g.isLowPriority) = l.map lowPriorityGapOf := by
    intro l
    induction l with
    | nil => rfl
    | cons c l ih => simp [lowPriorityGapOf, Gap.isLowPriority, ih]
  have hpri' : ∀ l : List Cluster,
      (l.map lowCoverageGapOf).filter (fun g => g.isLowPriority) = [] := by
    intro l
    induction l with
    | nil => rfl
    | cons c l ih => simp [lowCoverageGapOf, Gap.isLowPriority, ih]
  refine ⟨?_, ?_, ?_, ?_⟩
  · rw [hgaps, List.filter_append, List.filter_append, hcov, hcov', hpri, hpri']
    simp
  · rw [hgaps, List.filter_append, hcov, hcov', List.append_nil, List.map_map]
    rfl
  · rw [hgaps, List.filter_append, hpri, hpri', List.nil_append, List.map_map]
    rfl
  · rw [generate_recommendations_eq_map, List.length_map]

/-- C3: if entity extraction or sentiment analysis raises for a FAQ, the
whole record is dropped (`analyze_faq_content` yields `none`) and the
clustering run is unchanged by that FAQ's presence — it appears in no
cluster and does not contribute to `total_faqs` — while the run itself
still returns a report (`run_clustering` is total, so no exception
escapes); if both annotations succeed the record is kept in full; and
`total_faqs` counts exactly the FAQs whose analysis succeeded. -/
theorem analysis_failure_discards_faq
    (extract_entities : String → Except String (List Entity))
    (analyze_sentiment : String → Except String Sentiment) (faq : FAQRow) :
    ((∃ e, extract_entities (faqText faq) = .error e)
        ∨ (∃ e, analyze_sentiment (faqText faq) = .error e) →
      analyze_faq_content extract_entities analyze_sentiment faq = none
      ∧ ∀ pre post : List FAQRow,
          run_clustering extract_entities analyze_sentiment (pre ++ faq :: post)
            = run_clustering extract_entities analyze_sentiment (pre ++ post))
    ∧ (∀ entities sentiment,
        extract_entities (faqText faq) = .ok entities →
        analyze_sentiment (faqText faq) = .ok sentiment →
        analyze_faq_content extract_entities analyze_sentiment faq
          = some { id := faq.id, question := faq.question, answer := faq.answer,
                   category := faq.category, entities := entities,
                   sentiment := sentiment, priority := faq.priority })
    ∧ ∀ faqs : List FAQRow,
        (run_clustering extract_entities analyze_sentiment faqs).summary.total_faqs
          = (faqs.filterMap
              (analyze_faq_content extract_entities analyze_sentiment)).length := by
  refine ⟨?_, ?_, ?_⟩
  · intro hfail
    have hnone : analyze_faq_content extract_entities analyze_sentiment faq = none := by
      unfold analyze_faq_content
      rcases hfail with ⟨e, he⟩ | ⟨e, he⟩
      · rw [he]
      · cases hee : extract_entities (faqText faq) with
        | error e' => rfl
        | ok es => rw [he]
    refine ⟨hnone, ?_⟩
    intro pre post
    have hsame : (pre ++ faq :: post).filterMap
          (analyze_faq_content extract_entities analyze_sentiment)
        = (pre ++ post).filterMap
          (analyze_faq_content extract_entities analyze_sentiment) := by
      simp [List.filterMap_append, List.filterMap_cons, hnone]
    unfold run_clustering
    rw [hsame]
  · intro entities sentiment hee hse
    unfold analyze_faq_content
    rw [hee, hse]
  · intro faqs
    show ((create_clusters ((faqs.filterMap
        (analyze_faq_content extract_entities analyze_sentiment)).map some)).map
          (fun c => c.count)).sum
      = (faqs.filterMap (analyze_faq_content extract_entities analyze_sentiment)).length
    rw [create_clusters_eq, List.map_map]
    exact sum_counts_eq_length _

/-- C3 witness: with an always-failing entity extractor, a concrete FAQ
row is dropped and removing it from the input leaves the run unchanged. -/
theorem analysis_failure_discards_faq_witness :
    analyze_faq_content failingExtract okSentiment witnessFAQRow = none
    ∧ run_clustering failingExtract okSentiment [witnessFAQRow]
        = run_clustering failingExtract okSentiment [] := by
  have h := (analysis_failure_discards_faq failingExtract okSentiment witnessFAQRow).1
    (Or.inl ⟨"boom", rfl⟩)
  exact ⟨h.1, by simpa using h.2 [] []⟩

/-- C6: text-to-speech substitutes `alloy` for any voice outside the six
valid voices and resets any speed outside `[0.25, 4.0]` to `1.0`, passing
valid parameters through unchanged; `text_to_speech` hands exactly these
effective parameters to the synthesis call. -/
theorem tts_parameter_validation (voice : String) (speed : ℚ) :
    (voice ∉ valid_voices → tts_effective_voice voice = "alloy")
    ∧ (voice ∈ valid_voices → tts_effective_voice voice = voice)
    ∧ (speed < 1/4 ∨ 4 < speed → tts_effective_speed speed = 1)
    ∧ (1/4 ≤ speed → speed ≤ 4 → tts_effective_speed speed = speed)
    ∧ ∀ synthesize text,
        text_to_speech synthesize text voice speed
          = (match synthesize text (tts_effective_voice voice)
                (tts_effective_speed speed) with
             | .ok data => data
             | .error _ => []) := by
  refine ⟨?_, ?_, ?_, ?_, fun _ _ => rfl⟩
  · intro h
    unfold tts_effective_voice
    rw [if_neg]
    intro hc
    exact h (List.elem_iff.mp hc)
  · intro h
    unfold tts_effective_voice
    rw [if_pos]
    exact List.elem_iff.mpr h
  · intro h
    unfold tts_effective_speed
    rw [if_pos h]
  · intro h1 h2
    unfold tts_effective_speed
    have hno : ¬(speed < 1/4 ∨ 4 < speed) := by
      push_neg
      exact ⟨h1, h2⟩
    rw [if_neg hno]

/-- C6 witness: an unknown voice falls back to `alloy`, a known voice and
an in-range speed pass through, an out-of-range speed resets to 1. -/
theorem tts_parameter_validation_witness :
    tts_effective_voice ("robot") = "alloy"
    ∧ tts_effective_voice ("nova") = "nova"
    ∧ tts_effective_speed 5 = 1
    ∧ tts_effective_speed 2 = 2 := by
  have h1 := tts_parameter_validation ("robot") 5
  have h2 := tts_parameter_validation ("nova") 2
  exact ⟨h1.1 (by decide), h2.2.1 (by decide),
    h1.2.2.1 (Or.inr (by norm_num)), h2.2.2.2.1 (by norm_num) (by norm_num)⟩

/-- C7: audio format validation accepts exactly the non-empty buffers of
at most 25 MB — whether or not they begin with one of the recognised
headers, since unknown headers are assumed valid — and rejects exactly
the empty buffer and buffers over 25 MB. -/
theorem validate_audio_format_accepts_iff (data : List Nat) :
    (validate_audio_format data = true
      ↔ ¬data = [] ∧ data.length ≤ 25 * 1024 * 1024)
    ∧ (validate_audio_format data = false
      ↔ data = [] ∨ 25 * 1024 * 1024 < data.length) := by
  unfold validate_audio_format
  by_cases h1 : data.isEmpty
  · have he : data = [] := List.isEmpty_iff.mp h1
    subst he
    simp
  · have he : ¬data = [] := fun h => h1 (List.isEmpty_iff.mpr h)
    by_cases h2 : 25 * 1024 * 1024 < data.length
    · simp [h1, h2, he, Nat.not_le.mpr h2]
    · simp [h1, h2, he, Nat.not_lt.mp h2, ite_self]

/-- C8: the prompt built by `get_response` depends only on the last 10
stored history entries (the `[-10:]` window, of length at most 10), while
the stored history is never truncated: every successful call appends
exactly the user message and the assistant reply to the full stored
buffer, so it grows without bound. -/
theorem history_trimmed_at_prompt_time_only
    (chat_completion : List Message → Except String String)
    (history : List Message) (user_message : String)
    (user_context : Option String) :
    prompt_messages history user_message user_context
      = prompt_messages (takeLast 10 history) user_message user_context
    ∧ (takeLast 10 history).length ≤ 10
    ∧ ∀ ai_response,
        chat_completion (prompt_messages history user_message user_context)
          = .ok ai_response →
        (get_response chat_completion history user_message user_context).2
          = history ++ [{ role := "user", content := user_message },
                        { role := "assistant", content := ai_response }] := by
  refine ⟨?_, takeLast_length_le 10 history, ?_⟩
  · unfold prompt_messages
    rw [takeLast_takeLast]
  · intro ai_response h
    unfold get_response
    rw [h]

/-- C8 witness: a successful call appends the user and assistant messages
to the stored history. -/
theorem history_trimmed_at_prompt_time_only_witness :
    (get_response (fun _ => Except.ok ("Hello")) [] ("Hi") none).2
      = [{ role := "user", content := "Hi" },
         { role := "assistant", content := "Hello" }] := by
  have h := (history_trimmed_at_prompt_time_only
    (fun _ => Except.ok ("Hello")) [] ("Hi") none).2.2 ("Hello") rfl
  simpa using h

/-- C9: when the chat completion raises, `get_response` returns the fixed
apology text with the error message appended (so the reply contains the
error text) and leaves the stored conversation history exactly as it
was. -/
theorem chat_error_returns_apology_and_keeps_history
    (chat_completion : List Message → Except String String)
    (history : List Message) (user_message : String)
    (user_context : Option String) (e : String)
    (h : chat_completion (prompt_messages history user_message user_context)
      = .error e) :
    (get_response chat_completion history user_message user_context).1
      = apology_text ++ e
    ∧ (get_response chat_completion history user_message user_context).2
      = history := by
  unfold get_response
  rw [h]
  exact ⟨rfl, rfl⟩

/-- C9 witness: a failing chat completion yields the apology string and
an unchanged history. -/
theorem chat_error_returns_apology_and_keeps_history_witness :
    (get_response (fun _ => Except.error ("down"))
        [{ role := "user", content := "x" }] ("Hi") none).1
      = apology_text ++ "down"
    ∧ (get_response (fun _ => Except.error ("down"))
        [{ role := "user", content := "x" }] ("Hi") none).2
      = [{ role := "user", content := "x" }] :=
  chat_error_returns_apology_and_keeps_history _ _ _ _ _ rfl
